import Mathlib

/-!
Verification of the kan-opener board store.

This file is a shallow embedding of the persistence core of the kan-opener
browser extension: the Zustand board store (`src/store/useBoardStore.ts`)
and the storage adapter (`src/utils/storage.ts`).

Modelling conventions:
* JavaScript objects used as string-keyed maps (`tasks`, `columns`) become
  insertion-ordered association lists `List (String × α)`; `recGet`,
  `recSet` and `recRemove` mirror property lookup, the spread-update
  `{...obj, [k]: v}` and the `delete` operator.
* `Date.now()` is passed in as an explicit `now : Nat` parameter.
* Operations that can throw a TypeError at runtime (reading `.taskIds` of
  an undefined column) return `Except Unit BoardState`; a thrown exception
  aborts the Zustand `set` callback, so no state change happens on the
  `Except.error` paths.
* The asynchronous backends of `storage.ts` are modelled by environments
  (`GetEnv`, `SetEnv`) recording the outcome of each external call;
  `Except` models promise rejection.
-/

/-- JavaScript property lookup `obj[k]` on an insertion-ordered object. -/
def recGet {α : Type} (m : List (String × α)) (k : String) : Option α :=
  match m with
  | [] => none
  | (k2, v) :: rest => if k2 = k then some v else recGet rest k

/-- Whether the key is present (`k in obj`). -/
def recHas {α : Type} (m : List (String × α)) (k : String) : Bool :=
  (recGet m k).isSome

/-- The spread update `{...obj, [k]: v}`: replaces the value in place when
the key exists (JS keeps the original key position) and appends a new entry
otherwise. -/
def recSet {α : Type} (m : List (String × α)) (k : String) (v : α) :
    List (String × α) :=
  if recHas m k then m.map (fun p => if p.1 = k then (k, v) else p)
  else m ++ [(k, v)]

/-- The `delete obj[k]` operator. -/
def recRemove {α : Type} (m : List (String × α)) (k : String) :
    List (String × α) :=
  match m with
  | [] => []
  | (k2, v) :: rest =>
    if k2 = k then recRemove rest k else (k2, v) :: recRemove rest k

/-- `arr.splice(i, 1)`: removes the element at index `i` (JS clamps the
start index to the length, so an out-of-range index removes nothing). -/
def jsSpliceRemove {α : Type} (l : List α) (i : Nat) : List α :=
  l.take i ++ l.drop (i + 1)

/-- `arr.splice(i, 0, a)`: inserts `a` at index `i` (clamped to the length). -/
def jsSpliceInsert {α : Type} (l : List α) (i : Nat) (a : α) : List α :=
  l.take i ++ a :: l.drop i

/-- `s.includes(pat)` for a string `s` and a search string `pat`. -/
def jsIncludes (s pat : String) : Bool :=
  (List.range (s.length + 1)).any
    (fun i => List.isPrefixOf pat.toList (s.toList.drop i))

/-- Decidable equality for `Except`, used to evaluate the embedded
operations on concrete states. -/
instance {ε α : Type} [DecidableEq ε] [DecidableEq α] :
    DecidableEq (Except ε α) := fun a b =>
  match a, b with
  | Except.ok x, Except.ok y =>
    if h : x = y then isTrue (by subst h; rfl)
    else isFalse (by intro hc; injection hc; contradiction)
  | Except.error x, Except.error y =>
    if h : x = y then isTrue (by subst h; rfl)
    else isFalse (by intro hc; injection hc; contradiction)
  | Except.ok _, Except.error _ =>
    isFalse (by intro hc; exact Except.noConfusion hc)
  | Except.error _, Except.ok _ =>
    isFalse (by intro hc; exact Except.noConfusion hc)

/-! ## Data model (`useBoardStore.ts`) -/

/-- The `theme: 'dark' | 'light'` union. -/
inductive Theme : Type
  | dark
  | light
deriving DecidableEq, Repr

/-- A task object as it can exist at runtime. The interface declares
`id`, `title` and `createdAt` as required, but `updateTask` on an unknown
id spreads an undefined lookup, producing an object that carries only
`title` and `description`; hence every field is an `Option`. -/
structure JSTask : Type where
  id : Option String
  title : Option String
  description : Option String
  createdAt : Option Nat
deriving DecidableEq, Repr

/-- A column: `{ id, title, taskIds }`. -/
structure ColumnRec : Type where
  id : String
  title : String
  taskIds : List String
deriving DecidableEq, Repr

/-- A bookmark: `{ id, title, url }`. -/
structure Bookmark : Type where
  id : String
  title : String
  url : String
deriving DecidableEq, Repr

/-- The in-memory board document (the data fields of `BoardState`). -/
structure BoardState : Type where
  tasks : List (String × JSTask)
  columns : List (String × ColumnRec)
  columnOrder : List String
  isRevealed : Bool
  theme : Theme
  bookmarks : List Bookmark
  _hasHydrated : Bool
deriving DecidableEq, Repr

/-- The default columns of a fresh board. -/
def defaultColumns : List (String × ColumnRec) :=
  [("todo", ⟨"todo", "To Do", []⟩),
   ("in-progress", ⟨"in-progress", "In Progress", []⟩),
   ("done", ⟨"done", "Done", []⟩)]

/-- The default column order of a fresh board. -/
def defaultColumnOrder : List String := ["todo", "in-progress", "done"]

/-- The three seed bookmarks of a fresh board. -/
def defaultBookmarks : List Bookmark :=
  [⟨"b1", "Google", "https://google.com"⟩,
   ⟨"b2", "YouTube", "https://youtube.com"⟩,
   ⟨"b3", "Reddit", "https://reddit.com"⟩]

/-- The initial store state built by the `create` callback: empty tasks,
three default columns, dark theme, seed bookmarks, `_hasHydrated := false`. -/
def initialState : BoardState :=
  { tasks := []
    columns := defaultColumns
    columnOrder := defaultColumnOrder
    isRevealed := false
    theme := Theme.dark
    bookmarks := defaultBookmarks
    _hasHydrated := false }

/-! ## Store actions

Zustand's `set` merges the partial object returned by the action into the
current state, so each action is embedded as a full state transformer that
leaves the unmentioned fields unchanged. -/

/-- `setHasHydrated`. -/
def setHasHydrated (s : BoardState) (hydrated : Bool) : BoardState :=
  { s with _hasHydrated := hydrated }

/-- `addTask(columnId, title, description?)`. Reading
`state.columns[columnId].taskIds` throws when the column is unknown. -/
def addTask (s : BoardState) (columnId title : String)
    (description : Option String) (now : Nat) : Except Unit BoardState :=
  match recGet s.columns columnId with
  | none => Except.error ()
  | some col =>
    let newTaskId := "task-" ++ toString now
    Except.ok { s with
      tasks := (recSet s.tasks newTaskId
        ⟨some newTaskId, some title, description, some now⟩)
      columns := (recSet s.columns columnId
        { col with taskIds := col.taskIds ++ [newTaskId] }) }

/-- `updateTask(taskId, title, description?)`:
`{...state.tasks, [taskId]: {...state.tasks[taskId], title, description}}`.
When `taskId` is absent the inner spread is over `undefined`, which
contributes nothing, so a stub entry with only `title` and `description`
is inserted. -/
def updateTask (s : BoardState) (taskId title : String)
    (description : Option String) : BoardState :=
  let base := (recGet s.tasks taskId).getD ⟨none, none, none, none⟩
  { s with tasks := (recSet s.tasks taskId
      { base with title := some title, description := description }) }

/-- `deleteTask(taskId, columnId)`. Reading
`state.columns[columnId].taskIds` throws when the column is unknown. -/
def deleteTask (s : BoardState) (taskId columnId : String) :
    Except Unit BoardState :=
  match recGet s.columns columnId with
  | none => Except.error ()
  | some col =>
    Except.ok { s with
      tasks := recRemove s.tasks taskId
      columns := (recSet s.columns columnId
        { col with taskIds := col.taskIds.filter (fun i => i != taskId) }) }

/-- `moveTask(taskId, sourceColumnId, destColumnId, sourceIndex, destIndex)`.
The source compares `startColumn === finishColumn` (object identity): true
when the two keys are equal, and also when both lookups are `undefined`.
Reading `.taskIds` of an undefined column throws. -/
def moveTask (s : BoardState) (taskId srcColumnId dstColumnId : String)
    (srcIdx dstIdx : Nat) : Except Unit BoardState :=
  let start? := recGet s.columns srcColumnId
  let finish? := recGet s.columns dstColumnId
  if srcColumnId = dstColumnId ∨ (start? = none ∧ finish? = none) then
    match start? with
    | none => Except.error ()
    | some startCol =>
      let newTaskIds :=
        jsSpliceInsert (jsSpliceRemove startCol.taskIds srcIdx) dstIdx taskId
      Except.ok { s with
        columns := (recSet s.columns srcColumnId
          { startCol with taskIds := newTaskIds }) }
  else
    match start?, finish? with
    | some startCol, some finishCol =>
      Except.ok { s with
        columns := (recSet
          (recSet s.columns srcColumnId
            { startCol with taskIds := jsSpliceRemove startCol.taskIds srcIdx })
          dstColumnId
          { finishCol with
              taskIds := jsSpliceInsert finishCol.taskIds dstIdx taskId }) }
    | _, _ => Except.error ()

/-- `addColumn(title)`: inserts a fresh empty column under the id
`col-${Date.now()}` and appends that id to the end of `columnOrder`. -/
def addColumn (s : BoardState) (title : String) (now : Nat) : BoardState :=
  let newColumnId := "col-" ++ toString now
  { s with
    columns := recSet s.columns newColumnId ⟨newColumnId, title, []⟩
    columnOrder := s.columnOrder ++ [newColumnId] }

/-- `deleteColumn(columnId)`: a no-op for `"done"`; otherwise removes the
column, deletes every task listed in its `taskIds`, and filters the id out
of `columnOrder`. Reading `newColumns[columnId].taskIds` throws when the
column is unknown. -/
def deleteColumn (s : BoardState) (columnId : String) :
    Except Unit BoardState :=
  if columnId = "done" then Except.ok s
  else
    match recGet s.columns columnId with
    | none => Except.error ()
    | some col =>
      Except.ok { s with
        columns := recRemove s.columns columnId
        tasks := col.taskIds.foldl (fun acc tId => recRemove acc tId) s.tasks
        columnOrder := s.columnOrder.filter (fun i => i != columnId) }

/-! ## Persistence configuration (`persist` options) -/

/-- The persisted record shape. Each recognized field is optional (a stale
record can miss fields); `extra` stands for any property outside the
recognized five that a persisted record may carry. -/
structure Persisted : Type where
  tasks : Option (List (String × JSTask))
  columns : Option (List (String × ColumnRec))
  columnOrder : Option (List String)
  theme : Option Theme
  bookmarks : Option (List Bookmark)
  extra : Option String
deriving DecidableEq, Repr

/-- The `partialize` option: keeps exactly `tasks`, `columns`,
`columnOrder`, `theme` and `bookmarks` (never `isRevealed` or
`_hasHydrated`). -/
def partialize (s : BoardState) : Persisted :=
  { tasks := some s.tasks
    columns := some s.columns
    columnOrder := some s.columnOrder
    theme := some s.theme
    bookmarks := some s.bookmarks
    extra := none }

/-- The `migrate` option. For `version < 2` it returns a fresh object
literal holding exactly the five recognized fields, each taken from the
persisted state when present (`state?.field || default`, and every present
value of these typed fields is truthy) and defaulted otherwise; the literal
carries no other property, hence `extra := none`. For `version ≥ 2` the
state is returned as-is. -/
def migrate (state : Option Persisted) (version : Nat) : Option Persisted :=
  if version < 2 then
    some
      { tasks := some ((state.bind Persisted.tasks).getD [])
        columns := some ((state.bind Persisted.columns).getD defaultColumns)
        columnOrder :=
          some ((state.bind Persisted.columnOrder).getD defaultColumnOrder)
        theme := some ((state.bind Persisted.theme).getD Theme.dark)
        bookmarks :=
          some ((state.bind Persisted.bookmarks).getD defaultBookmarks)
        extra := none }
  else state

/-- The `onRehydrateStorage` callback, invoked once the load-and-migrate
sequence completes. With a non-null rehydrated state it calls
`state.setHasHydrated(true)`; with a null result it calls
`useBoardStore.getState().setHasHydrated(true)` on the current (default)
state. Either way the flag is raised. -/
def onRehydrateStorage (result : Option BoardState) (current : BoardState) :
    BoardState :=
  match result with
  | some st => setHasHydrated st true
  | none => setHasHydrated current true

/-! ## Storage adapter (`src/utils/storage.ts`) -/

/-- `MAX_RETRIES` constant. -/
def MAX_RETRIES : Nat := 3

/-- `RETRY_DELAY` constant (milliseconds). -/
def RETRY_DELAY : Nat := 300

/-- Environment for one `storage.getItem` run: whether
`chrome.storage.sync` exists, the outcome of the `chrome.storage.sync.get`
call made on each attempt (1-indexed; `Except.error` = promise rejection,
`Except.ok none` = key absent), the outcome of `localStorage.getItem`
(`Except.error` = throw, `Except.ok none` = null), and `JSON.parse`. -/
structure GetEnv (V : Type) : Type where
  chromeAvailable : Bool
  syncGet : Nat → Except Unit (Option V)
  localGet : Except Unit (Option String)
  parse : String → Except Unit V

/-- The observable outcome of a `storage.getItem` run: the resolved value,
how many `chrome.storage.sync.get` calls were made, and the backoff delays
awaited between attempts, in order. -/
structure GetResult (V : Type) : Type where
  value : V
  syncAttempts : Nat
  delays : List Nat
deriving Repr

/-- The `localStorage` read used both by the post-retry fallback and by the
no-chrome branch: `localStorage.getItem(key)`, then
`value ? JSON.parse(value) : defaultValue`, with any throw caught and the
default returned. -/
def localStorageRead {V : Type} (env : GetEnv V) (defaultValue : V) : V :=
  match env.localGet with
  | Except.error _ => defaultValue
  | Except.ok none => defaultValue
  | Except.ok (some s) =>
    if s = "" then defaultValue
    else
      match env.parse s with
      | Except.error _ => defaultValue
      | Except.ok v => v

/-- The retry loop `for (attempt = 1; attempt <= MAX_RETRIES; attempt++)`,
as bounded recursion: `remaining` is the fuel `MAX_RETRIES - attempt`, so
`remaining = 0` is exactly the exit condition `attempt = MAX_RETRIES` of
the source's `if (attempt < MAX_RETRIES)` guard. On failure with fuel left
the delay `RETRY_DELAY * attempt` is awaited (recorded) and the loop
retries; with no fuel left it falls back to the `localStorage` read. -/
def getLoop {V : Type} (env : GetEnv V) (defaultValue : V) :
    Nat → Nat → List Nat → GetResult V
  | attempt, remaining, delays =>
    match env.syncGet attempt with
    | Except.ok r => ⟨r.getD defaultValue, attempt, delays⟩
    | Except.error _ =>
      match remaining with
      | 0 => ⟨localStorageRead env defaultValue, attempt, delays⟩
      | n + 1 =>
        getLoop env defaultValue (attempt + 1) n
          (delays ++ [RETRY_DELAY * attempt])

/-- `storage.getItem(key, defaultValue)`. With chrome storage available it
runs the retry loop from attempt 1; otherwise it reads `localStorage`
directly. Every throwing operation is inside a try/catch, so the function
always resolves: the embedding returns a plain `GetResult`. -/
def getItem {V : Type} (env : GetEnv V) (defaultValue : V) : GetResult V :=
  if env.chromeAvailable then getLoop env defaultValue 1 (MAX_RETRIES - 1) []
  else ⟨localStorageRead env defaultValue, 0, []⟩

/-- A JavaScript error value; `message` is optional
(`err.message?.includes(...)`). -/
structure JsError : Type where
  message : Option String
deriving DecidableEq, Repr

/-- The quota test of the catch block:
`err.message?.includes('QUOTA_BYTES') || err.message?.includes('quota')`. -/
def isQuotaError (e : JsError) : Bool :=
  match e.message with
  | none => false
  | some m => jsIncludes m "QUOTA_BYTES" || jsIncludes m "quota"

/-- Environment for one `storage.setItem` run: availability of
`chrome.storage.sync`, the outcome of `getBytesInUse`, the serialized size
of the value, and the outcomes of `chrome.storage.sync.set` and of
`localStorage.setItem` for this key/value. -/
structure SetEnv : Type where
  chromeAvailable : Bool
  getBytesInUse : Except JsError Nat
  estimatedSize : Nat
  syncSet : Except JsError Unit
  localSet : Except JsError Unit

/-- The observable outcome of a `storage.setItem` run: whether the promise
resolved (`Except.ok`) or rejected with an error, whether the value was
written to `localStorage`, and which size warnings were logged. -/
structure SetResult : Type where
  result : Except JsError Unit
  wroteLocal : Bool
  warnedItemSize : Bool
  warnedQuota : Bool

/-- The catch block of the chrome branch of `setItem`: on a quota error it
attempts the `localStorage` fallback (its own failure only logged), then —
in every case — re-throws the original error
(`throw error; // Re-throw so zustand knows about the error`). -/
def setItemCatch (env : SetEnv) (e : JsError) (warnItem warnQuota : Bool) :
    SetResult :=
  if isQuotaError e then
    match env.localSet with
    | Except.ok _ =>
      { result := Except.error e, wroteLocal := true
        warnedItemSize := warnItem, warnedQuota := warnQuota }
    | Except.error _ =>
      { result := Except.error e, wroteLocal := false
        warnedItemSize := warnItem, warnedQuota := warnQuota }
  else
    { result := Except.error e, wroteLocal := false
      warnedItemSize := warnItem, warnedQuota := warnQuota }

/-- `storage.setItem(key, value)`. The chrome branch checks usage and size
(logging warnings), performs the write, and routes any throw — from
`getBytesInUse` or from `set` — through the catch block. The no-chrome
branch writes `localStorage`, re-throwing its error. -/
def setItem (env : SetEnv) : SetResult :=
  if env.chromeAvailable then
    match env.getBytesInUse with
    | Except.error e => setItemCatch env e false false
    | Except.ok bytesInUse =>
      let warnItem := decide (env.estimatedSize > 8192)
      let warnQuota := decide (bytesInUse + env.estimatedSize > 102400)
      match env.syncSet with
      | Except.ok _ =>
        { result := Except.ok (), wroteLocal := false
          warnedItemSize := warnItem, warnedQuota := warnQuota }
      | Except.error e => setItemCatch env e warnItem warnQuota
  else
    match env.localSet with
    | Except.ok _ =>
      { result := Except.ok (), wroteLocal := true
        warnedItemSize := false, warnedQuota := false }
    | Except.error e =>
      { result := Except.error e, wroteLocal := false
        warnedItemSize := false, warnedQuota := false }

/-- The frame left untouched by the task mutators: every field of the
board document other than `tasks` and `columns`. -/
def framePreserved (s s2 : BoardState) : Prop :=
  s2.columnOrder = s.columnOrder ∧ s2.theme = s.theme ∧
  s2.bookmarks = s.bookmarks ∧ s2.isRevealed = s.isRevealed ∧
  s2._hasHydrated = s._hasHydrated

/-! ## Helper lemmas about the record operations -/

theorem recGet_recRemove_self {α : Type} (m : List (String × α)) (k : String) :
    recGet (recRemove m k) k = none := by
  induction m with
  | nil => rfl
  | cons p rest ih =>
    obtain ⟨k2, v⟩ := p
    by_cases h : k2 = k
    · simpa [recRemove, h] using ih
    · simpa [recRemove, recGet, h] using ih

theorem recGet_recRemove_of_none {α : Type} (m : List (String × α))
    (k t : String) (h : recGet m t = none) :
    recGet (recRemove m k) t = none := by
  induction m with
  | nil => rfl
  | cons p rest ih =>
    obtain ⟨k2, v⟩ := p
    by_cases hk : k2 = k
    · by_cases ht : k2 = t
      · simp [recGet, ht] at h
      · simp [recGet, ht] at h
        simpa [recRemove, hk] using ih h
    · by_cases ht : k2 = t
      · simp [recGet, ht] at h
      · simp [recGet, ht] at h
        simpa [recRemove, recGet, hk, ht] using ih h

theorem recGet_foldl_recRemove_of_none {α : Type} (l : List String)
    (m : List (String × α)) (t : String) (h : recGet m t = none) :
    recGet (l.foldl (fun acc tId => recRemove acc tId) m) t = none := by
  induction l generalizing m with
  | nil => simpa using h
  | cons x xs ih => exact ih _ (recGet_recRemove_of_none m x t h)

theorem recGet_foldl_recRemove_of_mem {α : Type} (l : List String)
    (m : List (String × α)) (t : String) (h : t ∈ l) :
    recGet (l.foldl (fun acc tId => recRemove acc tId) m) t = none := by
  induction l generalizing m with
  | nil => cases h
  | cons x xs ih =>
    rcases List.mem_cons.mp h with rfl | hmem
    · exact recGet_foldl_recRemove_of_none xs _ t (recGet_recRemove_self m t)
    · exact ih _ hmem

/-! ## Claim theorems -/

/-- C1: the spec's done-last invariant claims that after every `addColumn`,
`moveColumn` or `deleteColumn` call the last element of `columnOrder` is
`"done"`. The code violates it at `addColumn`: starting from the default
board (whose order ends with `"done"`), a single `addColumn` appends the
fresh column id after `"done"`, so the last element is the new id. -/
theorem addColumn_appends_after_done :
    initialState.columnOrder.getLast? = some "done" ∧
    (addColumn initialState "New Column" 5).columnOrder =
      ["todo", "in-progress", "done", "col-5"] ∧
    (addColumn initialState "New Column" 5).columnOrder.getLast? ≠
      some "done" := by
  refine ⟨rfl, by decide, by decide⟩

/-- C6: the hydration flag `_hasHydrated` is `false` in the initial state,
and the `onRehydrateStorage` callback sets it to `true` on every path
through the load-and-migrate sequence — with real persisted data, with an
absent/empty result, and on a handled failure (null state) alike. -/
theorem hydration_flag_flips_true :
    initialState._hasHydrated = false ∧
    ∀ (result : Option BoardState) (current : BoardState),
      (onRehydrateStorage result current)._hasHydrated = true := by
  refine ⟨rfl, fun result current => ?_⟩
  cases result <;> rfl

/-- C7 counterexample: `updateTask` with a task id that is not a key of
`tasks` is not a no-op — on the initial state (empty `tasks`), updating
the unknown id `"ghost"` changes the state. -/
theorem updateTask_unknown_not_noop :
    updateTask initialState "ghost" "Title" none ≠ initialState := by
  decide

/-- C7 amended: for every state and unknown task id, `updateTask` inserts
a stub entry under that id holding only the given title and description
(the `id` and `createdAt` fields are absent, since the spread of the
undefined lookup contributes nothing); the rest of the state is
unchanged. -/
theorem updateTask_unknown_inserts_stub (s : BoardState)
    (taskId title : String) (description : Option String)
    (h : recGet s.tasks taskId = none) :
    updateTask s taskId title description =
      { s with tasks :=
          s.tasks ++ [(taskId, ⟨none, some title, description, none⟩)] } := by
  simp [updateTask, recSet, recHas, h]

/-- C7 witness: the amended theorem applied to the initial state and the
unknown id `"ghost"`. -/
theorem updateTask_unknown_inserts_stub_witness :
    updateTask initialState "ghost" "Title" none =
      { initialState with tasks :=
          initialState.tasks ++ [("ghost", ⟨none, some "Title", none, none⟩)] } :=
  updateTask_unknown_inserts_stub initialState "ghost" "Title" none rfl

/-- C9: serializing a board document through `partialize` (the persisted
subset: tasks, columns, columnOrder, theme, bookmarks) and migrating at
the current version (2) yields the document back field-for-field. -/
theorem migrate_partialize_roundtrip (D : BoardState) :
    migrate (some (partialize D)) 2 = some (partialize D) ∧
    (partialize D).tasks = some D.tasks ∧
    (partialize D).columns = some D.columns ∧
    (partialize D).columnOrder = some D.columnOrder ∧
    (partialize D).theme = some D.theme ∧
    (partialize D).bookmarks = some D.bookmarks :=
  ⟨rfl, rfl, rfl, rfl, rfl, rfl⟩

/-- A stale version-1 record holding only `tasks` and the column order
`["todo", "done"]` (the stale-schema scenario of the spec). -/
def staleV1Record (ts : List (String × JSTask)) : Persisted :=
  ⟨some ts, none, some ["todo", "done"], none, none, none⟩

/-- C4: for every persisted state and stored version below the current
one, `migrate` keeps each recognized field that is present and fills each
absent one with the fresh-board default (empty tasks, the three default
columns, order todo/in-progress/done, dark theme, the three seed
bookmarks); in particular a version-1 record holding only `tasks` and
`columnOrder = ["todo", "done"]` migrates with those two preserved exactly
and `columns`, `theme`, `bookmarks` defaulted. -/
theorem migrate_fills_defaults (version : Nat) (p : Persisted)
    (h : version < 2) :
    migrate (some p) version = some
      ⟨some (p.tasks.getD []), some (p.columns.getD defaultColumns),
       some (p.columnOrder.getD defaultColumnOrder),
       some (p.theme.getD Theme.dark),
       some (p.bookmarks.getD defaultBookmarks), none⟩ ∧
    ∀ ts, migrate (some (staleV1Record ts)) 1 = some
      ⟨some ts, some defaultColumns, some ["todo", "done"], some Theme.dark,
       some defaultBookmarks, none⟩ := by
  constructor
  · simp [migrate, h]
  · intro ts
    simp [migrate, staleV1Record]

/-- C4 witness: the theorem applied at version 1 to a record holding only
empty tasks and the column order `["todo", "done"]`. -/
theorem migrate_fills_defaults_witness :
    migrate (some (staleV1Record [])) 1 = some
      ⟨some [], some defaultColumns, some ["todo", "done"], some Theme.dark,
       some defaultBookmarks, none⟩ :=
  (migrate_fills_defaults 1 (staleV1Record []) (by decide)).2 []

/-- A persisted record carrying a field outside the recognized set,
modelled by `extra := some "customField"`. -/
def persistedWithExtra : Persisted :=
  ⟨some [], some defaultColumns, some defaultColumnOrder, some Theme.dark,
   some [], some "customField"⟩

/-- C5 counterexample: the claim says a field outside the recognized set
survives `migrate` for a stored version below the current one. It does
not: the `version < 2` branch returns a fresh object literal with exactly
the five recognized fields, so the unrecognized field of
`persistedWithExtra` is dropped (the migrated record carries `none`). -/
theorem migrate_drops_unrecognized_counterexample :
    persistedWithExtra.extra = some "customField" ∧
    (migrate (some persistedWithExtra) 1).bind Persisted.extra = none :=
  ⟨rfl, rfl⟩

/-- C5 amended: for a stored version below the current one, `migrate`
drops every field outside the recognized five (the output carries none of
them), while each recognized field that is present in the input is
preserved exactly, never replaced by a default. -/
theorem migrate_unrecognized_amended (version : Nat) (p : Persisted)
    (h : version < 2) :
    (migrate (some p) version).bind Persisted.extra = none ∧
    (∀ x, p.tasks = some x →
      (migrate (some p) version).bind Persisted.tasks = some x) ∧
    (∀ x, p.columns = some x →
      (migrate (some p) version).bind Persisted.columns = some x) ∧
    (∀ x, p.columnOrder = some x →
      (migrate (some p) version).bind Persisted.columnOrder = some x) ∧
    (∀ x, p.theme = some x →
      (migrate (some p) version).bind Persisted.theme = some x) ∧
    (∀ x, p.bookmarks = some x →
      (migrate (some p) version).bind Persisted.bookmarks = some x) := by
  refine ⟨by simp [migrate, h], ?_, ?_, ?_, ?_, ?_⟩ <;>
    intro x hx <;> simp [migrate, h, hx]

/-- C5 witness: the amended theorem applied to `persistedWithExtra` at
version 1. -/
theorem migrate_unrecognized_amended_witness :
    (migrate (some persistedWithExtra) 1).bind Persisted.extra = none ∧
    (migrate (some persistedWithExtra) 1).bind Persisted.columnOrder =
      some defaultColumnOrder :=
  ⟨(migrate_unrecognized_amended 1 persistedWithExtra (by decide)).1,
   (migrate_unrecognized_amended 1 persistedWithExtra (by decide)).2.2.2.1
     defaultColumnOrder rfl⟩

/-- An environment in which the primary write fails with a quota error and
the local fallback write succeeds. -/
def quotaEnv : SetEnv :=
  { chromeAvailable := true, getBytesInUse := Except.ok 102000,
    estimatedSize := 900,
    syncSet := Except.error ⟨some "QUOTA_BYTES exceeded"⟩,
    localSet := Except.ok () }

/-- C2 counterexample: the claim says that on a quota-exceeded failure of
the primary write, `setItem` resolves successfully to its caller. It does
not: in `quotaEnv` the value is written to the local backend, but the
catch block then re-throws (`throw error`), so `setItem` rejects with the
quota error instead of resolving. -/
theorem setItem_quota_rethrows_counterexample :
    isQuotaError ⟨some "QUOTA_BYTES exceeded"⟩ = true ∧
    (setItem quotaEnv).wroteLocal = true ∧
    (setItem quotaEnv).result = Except.error ⟨some "QUOTA_BYTES exceeded"⟩ ∧
    (setItem quotaEnv).result ≠ Except.ok () := by
  refine ⟨by decide, rfl, rfl, ?_⟩
  intro hcontr
  have h3 : (setItem quotaEnv).result =
      Except.error ⟨some "QUOTA_BYTES exceeded"⟩ := rfl
  rw [h3] at hcontr
  exact Except.noConfusion hcontr

/-- C2 amended: when the primary backend's write fails with a
quota-exceeded error and the local write succeeds, `setItem` does write
the value to the secondary local backend — but it then re-raises the
original quota error to its caller rather than resolving successfully. -/
theorem setItem_quota_fallback_amended (env : SetEnv) (e : JsError) (n : Nat)
    (hc : env.chromeAvailable = true) (hb : env.getBytesInUse = Except.ok n)
    (hs : env.syncSet = Except.error e) (hq : isQuotaError e = true)
    (hl : env.localSet = Except.ok ()) :
    (setItem env).wroteLocal = true ∧
    (setItem env).result = Except.error e := by
  simp [setItem, hc, hb, hs, setItemCatch, hq, hl]

/-- C2 witness: the amended theorem applied to `quotaEnv`. -/
theorem setItem_quota_fallback_amended_witness :
    (setItem quotaEnv).wroteLocal = true ∧
    (setItem quotaEnv).result = Except.error ⟨some "QUOTA_BYTES exceeded"⟩ :=
  setItem_quota_fallback_amended quotaEnv ⟨some "QUOTA_BYTES exceeded"⟩
    102000 rfl rfl rfl (by decide) rfl

/-- C3: `getItem` makes at most `MAX_RETRIES = 3` primary-backend attempts;
the delays awaited between attempts are `RETRY_DELAY × attempt` (linear
backoff: 300 ms then 600 ms); when all three attempts fail it falls back
to the `localStorage` read, and that read returns the caller-supplied
default when the local backend throws or is empty. Every throwing call is
caught, so the embedding's total return type `GetResult` witnesses that
`getItem` always resolves. -/
theorem getItem_retry_fallback_spec {V : Type} (env : GetEnv V)
    (defaultValue : V) :
    (getItem env defaultValue).syncAttempts ≤ MAX_RETRIES ∧
    (getItem env defaultValue).delays =
      (List.range ((getItem env defaultValue).syncAttempts - 1)).map
        (fun k => RETRY_DELAY * (k + 1)) ∧
    (env.chromeAvailable = true →
      env.syncGet 1 = Except.error () → env.syncGet 2 = Except.error () →
      env.syncGet 3 = Except.error () →
      (getItem env defaultValue).value = localStorageRead env defaultValue) ∧
    (env.localGet = Except.error () →
      localStorageRead env defaultValue = defaultValue) ∧
    (env.localGet = Except.ok none →
      localStorageRead env defaultValue = defaultValue) := by
  have hl1 : env.localGet = Except.error () →
      localStorageRead env defaultValue = defaultValue := by
    intro h
    simp [localStorageRead, h]
  have hl2 : env.localGet = Except.ok none →
      localStorageRead env defaultValue = defaultValue := by
    intro h
    simp [localStorageRead, h]
  cases hc : env.chromeAvailable with
  | false =>
    refine ⟨?_, ?_, ?_, hl1, hl2⟩
    · simp [getItem, hc, MAX_RETRIES]
    · simp [getItem, hc]
    · intro hcontr
      exact Bool.noConfusion hcontr
  | true =>
    cases h1 : env.syncGet 1 with
    | ok r =>
      refine ⟨?_, ?_, ?_, hl1, hl2⟩
      · simp [getItem, getLoop, hc, h1, MAX_RETRIES]
      · simp [getItem, getLoop, hc, h1, MAX_RETRIES]
      · intro _ h1' _ _
        exact Except.noConfusion h1'
    | error u =>
      cases u
      cases h2 : env.syncGet 2 with
      | ok r =>
        refine ⟨?_, ?_, ?_, hl1, hl2⟩
        · simp [getItem, getLoop, hc, h1, h2, MAX_RETRIES]
        · simp [getItem, getLoop, hc, h1, h2, MAX_RETRIES, RETRY_DELAY,
            List.range_succ]
        · intro _ _ h2' _
          exact Except.noConfusion h2'
      | error u2 =>
        cases u2
        cases h3 : env.syncGet 3 with
        | ok r =>
          refine ⟨?_, ?_, ?_, hl1, hl2⟩
          · simp [getItem, getLoop, hc, h1, h2, h3, MAX_RETRIES]
          · simp [getItem, getLoop, hc, h1, h2, h3, MAX_RETRIES, RETRY_DELAY,
              List.range_succ]
          · intro _ _ _ h3'
            exact Except.noConfusion h3'
        | error u3 =>
          cases u3
          refine ⟨?_, ?_, ?_, hl1, hl2⟩
          · simp [getItem, getLoop, hc, h1, h2, h3, MAX_RETRIES]
          · simp [getItem, getLoop, hc, h1, h2, h3, MAX_RETRIES, RETRY_DELAY,
              List.range_succ]
          · intro _ _ _ _
            simp [getItem, getLoop, hc, h1, h2, h3, MAX_RETRIES]

/-- An environment in which every primary read attempt rejects and the
local backend throws as well. -/
def failingGetEnv : GetEnv Nat :=
  { chromeAvailable := true, syncGet := fun _ => Except.error (),
    localGet := Except.error (), parse := fun _ => Except.error () }

/-- C3 witness: the theorem applied to `failingGetEnv` with default 7 —
three attempts are made, the backoff delays are 300 and 600, and the call
still resolves with the default. -/
theorem getItem_retry_fallback_spec_witness :
    (getItem failingGetEnv 7).syncAttempts ≤ MAX_RETRIES ∧
    (getItem failingGetEnv 7).value = 7 := by
  have h := getItem_retry_fallback_spec failingGetEnv 7
  refine ⟨h.1, ?_⟩
  rw [h.2.2.1 rfl rfl rfl rfl, h.2.2.2.1 rfl]

/-- The delete-column-with-tasks scenario: a column `"custom"` holding
tasks `t1` and `t2`, alongside the `"done"` column holding `t3`. -/
def customColumnState : BoardState :=
  { tasks :=
      [("t1", ⟨some "t1", some "Task 1", none, some 1⟩),
       ("t2", ⟨some "t2", some "Task 2", none, some 2⟩),
       ("t3", ⟨some "t3", some "Task 3", none, some 3⟩)]
    columns :=
      [("custom", ⟨"custom", "Custom", ["t1", "t2"]⟩),
       ("done", ⟨"done", "Done", ["t3"]⟩)]
    columnOrder := ["custom", "done"]
    isRevealed := false
    theme := Theme.dark
    bookmarks := []
    _hasHydrated := true }

/-- C8: `deleteColumn "done"` returns the state entirely unchanged; for
any other column id present in `columns`, `deleteColumn` removes the
column, removes every task id listed in its `taskIds` from `tasks`, and
removes the id from `columnOrder`; in particular deleting `"custom"`
(holding `t1`, `t2`) from `customColumnState` leaves `tasks` without `t1`
and `t2`, `columns` without `"custom"`, and `columnOrder` without
`"custom"`. -/
theorem deleteColumn_spec (s : BoardState) (columnId : String)
    (col : ColumnRec) (hne : columnId ≠ "done")
    (hcol : recGet s.columns columnId = some col) :
    deleteColumn s "done" = Except.ok s ∧
    deleteColumn s columnId = Except.ok { s with
      columns := recRemove s.columns columnId
      tasks := col.taskIds.foldl (fun acc tId => recRemove acc tId) s.tasks
      columnOrder := s.columnOrder.filter (fun i => i != columnId) } ∧
    recGet (recRemove s.columns columnId) columnId = none ∧
    (∀ t ∈ col.taskIds,
      recGet (col.taskIds.foldl (fun acc tId => recRemove acc tId) s.tasks) t
        = none) ∧
    columnId ∉ s.columnOrder.filter (fun i => i != columnId) ∧
    (deleteColumn customColumnState "custom" = Except.ok
      { customColumnState with
        columns := [("done", ⟨"done", "Done", ["t3"]⟩)]
        tasks := [("t3", ⟨some "t3", some "Task 3", none, some 3⟩)]
        columnOrder := ["done"] } ∧
     recGet ((customColumnState.columns).filter (fun p => p.1 != "custom"))
       "custom" = none) := by
  refine ⟨by simp [deleteColumn], ?_, recGet_recRemove_self _ _,
    fun t ht => recGet_foldl_recRemove_of_mem _ _ t ht, ?_, by decide, by decide⟩
  · simp [deleteColumn, hne, hcol]
  · simp [List.mem_filter]

/-- C8 witness: the theorem applied to `customColumnState` and the column
`"custom"`. -/
theorem deleteColumn_spec_witness :
    deleteColumn customColumnState "done" = Except.ok customColumnState ∧
    "custom" ∉ customColumnState.columnOrder.filter (fun i => i != "custom") :=
  ⟨(deleteColumn_spec customColumnState "custom"
      ⟨"custom", "Custom", ["t1", "t2"]⟩ (by decide) rfl).1,
   (deleteColumn_spec customColumnState "custom"
      ⟨"custom", "Custom", ["t1", "t2"]⟩ (by decide) rfl).2.2.2.2.1⟩

/-- C10: for every state and arguments, each task mutator — `addTask`,
`updateTask`, `deleteTask`, `moveTask` — leaves `columnOrder`, `theme` and
`bookmarks` (and the other non-task fields `isRevealed`, `_hasHydrated`)
unchanged in any state it produces: only `tasks` and `columns` can differ.
The mutators that can throw produce no state at all on their error path. -/
theorem task_mutators_frame (s : BoardState)
    (columnId taskId srcColumnId dstColumnId title : String)
    (description : Option String) (now srcIdx dstIdx : Nat) :
    (∀ s2, addTask s columnId title description now = Except.ok s2 →
      framePreserved s s2) ∧
    framePreserved s (updateTask s taskId title description) ∧
    (∀ s2, deleteTask s taskId columnId = Except.ok s2 →
      framePreserved s s2) ∧
    (∀ s2, moveTask s taskId srcColumnId dstColumnId srcIdx dstIdx =
      Except.ok s2 → framePreserved s s2) := by
  refine ⟨?_, ?_, ?_, ?_⟩
  · intro s2 h
    unfold addTask at h
    cases hc : recGet s.columns columnId <;> rw [hc] at h
    · exact Except.noConfusion h
    · injection h with h2
      subst h2
      exact ⟨rfl, rfl, rfl, rfl, rfl⟩
  · exact ⟨rfl, rfl, rfl, rfl, rfl⟩
  · intro s2 h
    unfold deleteTask at h
    cases hc : recGet s.columns columnId <;> rw [hc] at h
    · exact Except.noConfusion h
    · injection h with h2
      subst h2
      exact ⟨rfl, rfl, rfl, rfl, rfl⟩
  · intro s2 h
    simp only [moveTask] at h
    split at h
    · cases hc : recGet s.columns srcColumnId <;> rw [hc] at h
      · exact Except.noConfusion h
      · injection h with h2
        subst h2
        exact ⟨rfl, rfl, rfl, rfl, rfl⟩
    · cases hc1 : recGet s.columns srcColumnId <;>
        cases hc2 : recGet s.columns dstColumnId <;> rw [hc1, hc2] at h
      · exact Except.noConfusion h
      · exact Except.noConfusion h
      · exact Except.noConfusion h
      · injection h with h2
        subst h2
        exact ⟨rfl, rfl, rfl, rfl, rfl⟩

/-- C10 witness: `addTask` into the `"todo"` column of the initial state
succeeds and preserves the frame. -/
theorem task_mutators_frame_witness :
    addTask initialState "todo" "Hello" none 42 = Except.ok
      { initialState with
        tasks := [("task-42", ⟨some "task-42", some "Hello", none, some 42⟩)]
        columns :=
          [("todo", ⟨"todo", "To Do", ["task-42"]⟩),
           ("in-progress", ⟨"in-progress", "In Progress", []⟩),
           ("done", ⟨"done", "Done", []⟩)] } ∧
    framePreserved initialState
      { initialState with
        tasks := [("task-42", ⟨some "task-42", some "Hello", none, some 42⟩)]
        columns :=
          [("todo", ⟨"todo", "To Do", ["task-42"]⟩),
           ("in-progress", ⟨"in-progress", "In Progress", []⟩),
           ("done", ⟨"done", "Done", []⟩)] } := by
  refine ⟨by decide, ?_⟩
  exact (task_mutators_frame initialState "todo" "t" "a" "b" "Hello" none
    42 0 0).1 _ (by decide)
